import Mathlib

/-!
Verification of the spaced-repetition scheduling engine (reviewEngine.ts)
of the LexiMemo AI repository.

The TypeScript scheduler is embedded shallowly:
* timestamps are integers (milliseconds since epoch),
* `easeFactor` is an exact rational (the source uses a JS number),
* the impure reads of a global clock (`Date.now()`) and of the id generator
  (`generateId()`) are made explicit parameters, so every embedded function
  is a pure function of its arguments,
* `Math.round` is `fun x => Int.floor (x + 1/2)` (round half toward plus
  infinity, as in JS for the values that occur here),
* the local calendar used by `Date.prototype.toDateString` is fixed to UTC.
-/

/-- The closed tag set of learnable items (`type` field, `'word' | 'sentence'`). -/
inductive ItemType where
  | word
  | sentence
deriving DecidableEq

/-- Embedding of the `LearningItem` record, with the fields the scheduler
constructs and updates (`createLearningItem` in reviewEngine.ts). -/
structure LearningItem where
  id : String
  type : ItemType
  content : String
  translation : String
  context : Option String
  createdAt : Int
  lastReviewedAt : Int
  nextReviewAt : Int
  interval : Int
  easeFactor : ℚ
  userId : String
deriving DecidableEq

/-- Embedding of the `ReviewResult` record; the scheduler reads only its
`quality` field. -/
structure ReviewResult where
  quality : Int
deriving DecidableEq

/-- `DEFAULT_EASE_FACTOR = 2.5` from reviewEngine.ts. -/
def DEFAULT_EASE_FACTOR : ℚ := 5 / 2

/-- `MIN_EASE_FACTOR = 1.3` from reviewEngine.ts. -/
def MIN_EASE_FACTOR : ℚ := 13 / 10

/-- `INITIAL_INTERVAL = 1` (days) from reviewEngine.ts. -/
def INITIAL_INTERVAL : Int := 1

/-- JavaScript `Math.round`: floor of `x + 1/2` (half rounds toward plus
infinity). -/
def jsRound (x : ℚ) : Int := Int.floor (x + 1 / 2)

/-- The SM-2 ease-factor adjustment term
`0.1 - (5 - quality) * (0.08 + (5 - quality) * 0.02)` from
`updateItemAfterReview` (reviewEngine.ts line 199). -/
def easeAdjustment (q : Int) : ℚ :=
  1 / 10 - (5 - (q : ℚ)) * (2 / 25 + (5 - (q : ℚ)) * (1 / 50))

/-- Embedding of `updateItemAfterReview` (reviewEngine.ts lines 178-216).
The source reads `Date.now()` into `now`; that ambient clock value is the
explicit first argument here.  Faithful to the source's evaluation order:
`newInterval` is computed from `newEaseFactor` while that variable still
holds `item.easeFactor`; the ease-factor update happens afterwards. -/
def updateItemAfterReview (now : Int) (item : LearningItem) (result : ReviewResult) :
    LearningItem :=
  let newInterval : Int :=
    if 3 ≤ result.quality then
      if item.interval = 0 then 1
      else if item.interval = 1 then 6
      else jsRound ((item.interval : ℚ) * item.easeFactor)
    else 1
  let rawEase : ℚ := item.easeFactor + easeAdjustment result.quality
  let newEaseFactor : ℚ := if rawEase < MIN_EASE_FACTOR then MIN_EASE_FACTOR else rawEase
  { item with
    lastReviewedAt := now
    nextReviewAt := now + newInterval * (24 * 60 * 60 * 1000)
    interval := newInterval
    easeFactor := newEaseFactor }

/-- Embedding of `createLearningItem` (reviewEngine.ts lines 227-249).
The impure `generateId()` and `Date.now()` of the source are the explicit
`id` and `now` arguments. -/
def createLearningItem (content translation : String) (type : ItemType)
    (context : Option String) (userId : String) (id : String) (now : Int) :
    LearningItem :=
  { id := id
    type := type
    content := content
    translation := translation
    context := context
    createdAt := now
    lastReviewedAt := 0
    nextReviewAt := now + INITIAL_INTERVAL * (24 * 60 * 60 * 1000)
    interval := INITIAL_INTERVAL
    easeFactor := DEFAULT_EASE_FACTOR
    userId := userId }

/-- Embedding of `getTodayReviewItems` (reviewEngine.ts lines 256-259).
The source reads `Date.now()`; that ambient clock value is the explicit
`now` argument. -/
def getTodayReviewItems (now : Int) (items : List LearningItem) :
    List LearningItem :=
  items.filter (fun item => decide (item.nextReviewAt ≤ now))

/-- Unfolding lemma: the `interval` field of the updated item. -/
theorem updateItemAfterReview_interval (now : Int) (item : LearningItem)
    (r : ReviewResult) :
    (updateItemAfterReview now item r).interval =
      if 3 ≤ r.quality then
        if item.interval = 0 then 1
        else if item.interval = 1 then 6
        else jsRound ((item.interval : ℚ) * item.easeFactor)
      else 1 := rfl

/-- Unfolding lemma: the `easeFactor` field of the updated item. -/
theorem updateItemAfterReview_easeFactor (now : Int) (item : LearningItem)
    (r : ReviewResult) :
    (updateItemAfterReview now item r).easeFactor =
      if item.easeFactor + easeAdjustment r.quality < MIN_EASE_FACTOR
      then MIN_EASE_FACTOR
      else item.easeFactor + easeAdjustment r.quality := rfl

/-- Claim C5: for every item whose stored interval is exactly 1 (in
particular a freshly created item), a review with quality 5 yields an item
whose interval is exactly 6 days. -/
theorem second_step_jump_interval_six (now : Int) (item : LearningItem)
    (r : ReviewResult) (h1 : item.interval = 1) (hq : r.quality = 5) :
    (updateItemAfterReview now item r).interval = 6 := by
  rw [updateItemAfterReview_interval, if_pos (by omega), h1]
  simp

/-- Witness for C5: a freshly created item has interval 1, and a quality-5
review one day later yields interval 6. -/
theorem second_step_jump_interval_six_witness :
    (updateItemAfterReview 86400000
      (createLearningItem "hola" "hello" ItemType.word none "local" "id5" 0)
      ⟨5⟩).interval = 6 :=
  second_step_jump_interval_six 86400000
    (createLearningItem "hola" "hello" ItemType.word none "local" "id5" 0)
    ⟨5⟩ rfl rfl

/-- Claim C6: for every item with interval greater than 1 and every ease
factor, a review with failing quality (quality below 3) yields interval 1 on
the returned item, regardless of the previous interval or ease factor. -/
theorem failure_resets_interval (now : Int) (item : LearningItem)
    (r : ReviewResult) (hN : 1 < item.interval) (hq : r.quality < 3) :
    (updateItemAfterReview now item r).interval = 1 := by
  rw [updateItemAfterReview_interval, if_neg (by omega)]

/-- Witness for C6: an item with interval 42 and ease factor 2 reviewed with
quality 2 comes back with interval 1. -/
theorem failure_resets_interval_witness :
    (updateItemAfterReview 0
      { id := "w6", type := ItemType.word, content := "a", translation := "b",
        context := none, createdAt := 0, lastReviewedAt := 0,
        nextReviewAt := 0, interval := 42, easeFactor := 2,
        userId := "local" } ⟨2⟩).interval = 1 :=
  failure_resets_interval 0
    { id := "w6", type := ItemType.word, content := "a", translation := "b",
      context := none, createdAt := 0, lastReviewedAt := 0,
      nextReviewAt := 0, interval := 42, easeFactor := 2, userId := "local" }
    ⟨2⟩ (by decide) (by decide)

/-- Folding a list of review outcomes over an item, every review happening at
the same clock value `now` (the clock value is irrelevant to the ease
factor). -/
def applyReviews (now : Int) (item : LearningItem) : List ReviewResult → LearningItem
  | [] => item
  | r :: rs => applyReviews now (updateItemAfterReview now item r) rs

/-- One review keeps the ease factor at or above the 1.3 floor, whatever the
input item was. -/
theorem easeFactor_floor_step (now : Int) (item : LearningItem) (r : ReviewResult) :
    MIN_EASE_FACTOR ≤ (updateItemAfterReview now item r).easeFactor := by
  rw [updateItemAfterReview_easeFactor]
  split
  · exact le_refl _
  · linarith [not_lt.mp (by assumption :
      ¬ item.easeFactor + easeAdjustment r.quality < MIN_EASE_FACTOR)]

/-- Any nonempty fold of reviews lands at or above the ease floor; an empty
fold preserves the item, so a lower bound on the input is preserved. -/
theorem easeFactor_floor_applyReviews (now : Int) (item : LearningItem)
    (rs : List ReviewResult) (h : MIN_EASE_FACTOR ≤ item.easeFactor) :
    MIN_EASE_FACTOR ≤ (applyReviews now item rs).easeFactor := by
  induction rs generalizing item with
  | nil => exact h
  | cons r rs ih => exact ih _ (easeFactor_floor_step now item r)

/-- Claim C7: every result of `updateItemAfterReview` has ease factor at
least 1.3 (hence so does every item reachable from a freshly created item by
any sequence of reviews), and no upper clamp is applied: whenever the SM-2
adjusted value is at least 1.3 it is stored unchanged. -/
theorem ease_floor_invariant (now : Int) (item : LearningItem) (r : ReviewResult)
    (rs : List ReviewResult) (content translation : String) (ty : ItemType)
    (ctx : Option String) (uid idv : String) (t0 : Int) :
    MIN_EASE_FACTOR ≤ (updateItemAfterReview now item r).easeFactor ∧
    (MIN_EASE_FACTOR ≤ item.easeFactor + easeAdjustment r.quality →
      (updateItemAfterReview now item r).easeFactor =
        item.easeFactor + easeAdjustment r.quality) ∧
    MIN_EASE_FACTOR ≤
      (applyReviews now (createLearningItem content translation ty ctx uid idv t0)
        rs).easeFactor := by
  refine ⟨easeFactor_floor_step now item r, ?_, ?_⟩
  · intro h
    rw [updateItemAfterReview_easeFactor, if_neg (not_lt.mpr h)]
  · refine easeFactor_floor_applyReviews now _ rs ?_
    show MIN_EASE_FACTOR ≤ DEFAULT_EASE_FACTOR
    rw [MIN_EASE_FACTOR, DEFAULT_EASE_FACTOR]
    norm_num

/-- Witness for C7: three consecutive quality-0 reviews of a fresh item keep
the ease factor at or above 1.3, and a quality-5 review of a fresh item
stores the unclamped adjusted value. -/
theorem ease_floor_invariant_witness :
    MIN_EASE_FACTOR ≤ (updateItemAfterReview 0
      (createLearningItem "a" "b" ItemType.word none "local" "w7" 0)
      ⟨5⟩).easeFactor ∧
    (updateItemAfterReview 0
      (createLearningItem "a" "b" ItemType.word none "local" "w7" 0)
      ⟨5⟩).easeFactor =
      (createLearningItem "a" "b" ItemType.word none "local" "w7" 0).easeFactor +
        easeAdjustment 5 ∧
    MIN_EASE_FACTOR ≤
      (applyReviews 0 (createLearningItem "a" "b" ItemType.word none "local" "w7" 0)
        [⟨0⟩, ⟨0⟩, ⟨0⟩]).easeFactor := by
  have h := ease_floor_invariant 0
    (createLearningItem "a" "b" ItemType.word none "local" "w7" 0) ⟨5⟩
    [⟨0⟩, ⟨0⟩, ⟨0⟩] "a" "b" ItemType.word none "local" "w7" 0
  refine ⟨h.1, h.2.1 ?_, h.2.2⟩
  norm_num [createLearningItem, DEFAULT_EASE_FACTOR, easeAdjustment, MIN_EASE_FACTOR]

/-- Claim C8: the due-item query returns exactly the subset of the input
with `nextReviewAt ≤ now`: membership is equivalent to the predicate, the
empty input yields the empty output, a `now` below every `nextReviewAt`
yields the empty output, and a `now` at or above every `nextReviewAt` yields
the full input list. -/
theorem due_query_exact (now : Int) (items : List LearningItem) :
    (∀ x, x ∈ getTodayReviewItems now items ↔ x ∈ items ∧ x.nextReviewAt ≤ now) ∧
    getTodayReviewItems now [] = [] ∧
    ((∀ x ∈ items, now < x.nextReviewAt) → getTodayReviewItems now items = []) ∧
    ((∀ x ∈ items, x.nextReviewAt ≤ now) → getTodayReviewItems now items = items) := by
  refine ⟨?_, rfl, ?_, ?_⟩
  · intro x
    rw [getTodayReviewItems, List.mem_filter, decide_eq_true_eq]
  · intro h
    rw [getTodayReviewItems, List.filter_eq_nil_iff]
    intro a ha
    rw [decide_eq_true_eq]
    exact not_le.mpr (h a ha)
  · intro h
    rw [getTodayReviewItems, List.filter_eq_self]
    intro a ha
    rw [decide_eq_true_eq]
    exact h a ha

/-- Concrete item used by the C8 witness: due at time 5. -/
def dueAtFive : LearningItem :=
  { id := "w8", type := ItemType.word, content := "a", translation := "b",
    context := none, createdAt := 0, lastReviewedAt := 0,
    nextReviewAt := 5, interval := 1, easeFactor := 5 / 2, userId := "local" }

/-- Witness for C8: with a single item due at time 5, the query at time 0 is
empty and the query at time 10 returns the whole list. -/
theorem due_query_exact_witness :
    (dueAtFive ∈ getTodayReviewItems 10 [dueAtFive] ↔
      dueAtFive ∈ [dueAtFive] ∧ dueAtFive.nextReviewAt ≤ 10) ∧
    getTodayReviewItems 10 [] = [] ∧
    getTodayReviewItems 0 [dueAtFive] = [] ∧
    getTodayReviewItems 10 [dueAtFive] = [dueAtFive] :=
  ⟨(due_query_exact 10 [dueAtFive]).1 dueAtFive,
   (due_query_exact 10 []).2.1,
   (due_query_exact 0 [dueAtFive]).2.2.1 (by decide),
   (due_query_exact 10 [dueAtFive]).2.2.2 (by decide)⟩

/-- Claim C10: with integer interval at least 1, ease factor at least 1.3,
and a passing quality, the review strictly increases the interval. -/
theorem passing_review_increases_interval (now : Int) (item : LearningItem)
    (r : ReviewResult) (h1 : 1 ≤ item.interval)
    (he : MIN_EASE_FACTOR ≤ item.easeFactor) (hq : 3 ≤ r.quality) :
    item.interval < (updateItemAfterReview now item r).interval := by
  rw [updateItemAfterReview_interval, if_pos hq]
  rcases eq_or_lt_of_le h1 with h1e | h2
  · rw [← h1e]
    norm_num
  · have h0 : ¬ item.interval = 0 := by omega
    have h1n : ¬ item.interval = 1 := by omega
    rw [if_neg h0, if_neg h1n, jsRound]
    rw [Int.lt_iff_add_one_le, Int.le_floor]
    have hn2 : (2 : ℚ) ≤ (item.interval : ℚ) := by exact_mod_cast h2
    have hnn : (0 : ℚ) ≤ (item.interval : ℚ) := by linarith
    have hmul : (item.interval : ℚ) * MIN_EASE_FACTOR ≤
        (item.interval : ℚ) * item.easeFactor :=
      mul_le_mul_of_nonneg_left he hnn
    rw [MIN_EASE_FACTOR] at hmul
    push_cast
    nlinarith

/-- Witness for C10: an item with interval 2 and ease factor 1.3 reviewed
with quality 3 gets interval round(2.6) = 3, strictly more than 2. -/
theorem passing_review_increases_interval_witness :
    (2 : Int) <
      (updateItemAfterReview 0
        { id := "w10", type := ItemType.word, content := "a", translation := "b",
          context := none, createdAt := 0, lastReviewedAt := 0,
          nextReviewAt := 0, interval := 2, easeFactor := 13 / 10,
          userId := "local" } ⟨3⟩).interval :=
  passing_review_increases_interval 0
    { id := "w10", type := ItemType.word, content := "a", translation := "b",
      context := none, createdAt := 0, lastReviewedAt := 0,
      nextReviewAt := 0, interval := 2, easeFactor := 13 / 10,
      userId := "local" } ⟨3⟩ (by decide) (by norm_num [MIN_EASE_FACTOR]) (by decide)

/-- Claim C9: `updateItemAfterReview` replaces only `interval`, `easeFactor`,
`lastReviewedAt` and `nextReviewAt`; the fields `id`, `content`,
`translation`, `context`, `createdAt` and `userId` of the returned item equal
those of the input item. -/
theorem review_update_frame (now : Int) (item : LearningItem)
    (r : ReviewResult) :
    (updateItemAfterReview now item r).id = item.id ∧
    (updateItemAfterReview now item r).content = item.content ∧
    (updateItemAfterReview now item r).translation = item.translation ∧
    (updateItemAfterReview now item r).context = item.context ∧
    (updateItemAfterReview now item r).createdAt = item.createdAt ∧
    (updateItemAfterReview now item r).userId = item.userId :=
  ⟨rfl, rfl, rfl, rfl, rfl, rfl⟩

/-- The item of the spec's concrete second-review scenario: after the first
quality-5 review it holds interval 6 and ease factor 2.6, and is due at
t = 604800000. -/
def scenarioItem : LearningItem :=
  { id := "itm1", type := ItemType.word, content := "hola",
    translation := "hello", context := none, createdAt := 0,
    lastReviewedAt := 86400000, nextReviewAt := 604800000, interval := 6,
    easeFactor := 13 / 5, userId := "local" }

/-- Counterexample to claim C1: in the spec's concrete scenario (interval 6,
ease factor 2.6, quality 3) the code multiplies the interval by the ease
factor BEFORE the SM-2 ease update (the local `newEaseFactor` still holds the
old value at that point), so the new interval is round(6 × 2.6) = 16, not
round(6 × 2.46) = 15 as the claim states. -/
theorem scenario_second_review_interval_sixteen :
    (updateItemAfterReview 604800000 scenarioItem ⟨3⟩).interval = 16 ∧
    (updateItemAfterReview 604800000 scenarioItem ⟨3⟩).interval ≠ 15 := by
  have h : (updateItemAfterReview 604800000 scenarioItem ⟨3⟩).interval = 16 := by
    rw [updateItemAfterReview_interval]
    norm_num [scenarioItem, jsRound]
  exact ⟨h, by rw [h]; decide⟩

/-- Claim C1 (amended): for every item with stored interval at least 2 and
every passing quality 3 ≤ q ≤ 5, the new interval is
round(interval × easeFactor) computed with the ease factor as it was BEFORE
this review's SM-2 ease update; the ease update is evaluated after the
interval multiplication, so the concrete scenario yields
round(6 × 2.6) = 16. -/
theorem interval_uses_pre_update_ease (now : Int) (item : LearningItem)
    (r : ReviewResult) (h2 : 2 ≤ item.interval) (hq3 : 3 ≤ r.quality)
    (hq5 : r.quality ≤ 5) :
    (updateItemAfterReview now item r).interval =
      jsRound ((item.interval : ℚ) * item.easeFactor) := by
  rw [updateItemAfterReview_interval, if_pos hq3, if_neg (by omega),
    if_neg (by omega)]

/-- Witness for the amended C1: the scenario item, reviewed with quality 3,
gets interval round(6 × 2.6). -/
theorem interval_uses_pre_update_ease_witness :
    (updateItemAfterReview 604800000 scenarioItem ⟨3⟩).interval =
      jsRound ((scenarioItem.interval : ℚ) * scenarioItem.easeFactor) :=
  interval_uses_pre_update_ease 604800000 scenarioItem ⟨3⟩
    (by decide) (by decide) (by decide)

/-- An item due at t = 86400000, used to exhibit the dependence of the
scheduler on the ambient clock. -/
def clockProbeItem : LearningItem :=
  { id := "itm2", type := ItemType.word, content := "hola",
    translation := "hello", context := none, createdAt := 0,
    lastReviewedAt := 0, nextReviewAt := 86400000, interval := 1,
    easeFactor := 5 / 2, userId := "local" }

/-- Counterexample to claim C2: the source operations do not take `now` as an
argument; they read the global clock (`Date.now()`) internally, so two
invocations with identical caller-supplied inputs (item and outcome, or the
item collection) return different results when the ambient clock has moved.
With the clock reading made explicit in the embedding, the same item and
outcome at clock 0 and at clock 86400000 give different items, and the same
collection gives different due lists. -/
theorem ambient_clock_dependence :
    updateItemAfterReview 0 clockProbeItem ⟨4⟩ ≠
      updateItemAfterReview 86400000 clockProbeItem ⟨4⟩ ∧
    getTodayReviewItems 0 [clockProbeItem] ≠
      getTodayReviewItems 86400000 [clockProbeItem] := by
  constructor
  · intro h
    have h2 := congrArg LearningItem.lastReviewedAt h
    have e1 : (updateItemAfterReview 0 clockProbeItem ⟨4⟩).lastReviewedAt = 0 := rfl
    have e2 : (updateItemAfterReview 86400000 clockProbeItem
        ⟨4⟩).lastReviewedAt = 86400000 := rfl
    rw [e1, e2] at h2
    exact absurd h2 (by decide)
  · intro h
    have e1 : getTodayReviewItems 0 [clockProbeItem] = [] := rfl
    have e2 : getTodayReviewItems 86400000 [clockProbeItem] =
        [clockProbeItem] := rfl
    rw [e1, e2] at h
    exact (List.cons_ne_nil clockProbeItem []).symm h

/-- Claim C2 (amended): the scheduler operations read `Date.now()` internally
rather than taking `now` as an argument; with that internal clock reading
modelled as an explicit input, they are deterministic: two invocations whose
clock readings coincide and whose remaining inputs are identical return
identical results. -/
theorem deterministic_given_clock (t1 t2 : Int) (item : LearningItem)
    (r : ReviewResult) (items : List LearningItem) (h : t1 = t2) :
    updateItemAfterReview t1 item r = updateItemAfterReview t2 item r ∧
    getTodayReviewItems t1 items = getTodayReviewItems t2 items := by
  subst h
  exact ⟨rfl, rfl⟩

/-- Witness for the amended C2: at the same clock reading 86400000, both
operations reproduce their results. -/
theorem deterministic_given_clock_witness :
    updateItemAfterReview 86400000 clockProbeItem ⟨4⟩ =
      updateItemAfterReview 86400000 clockProbeItem ⟨4⟩ ∧
    getTodayReviewItems 86400000 [clockProbeItem] =
      getTodayReviewItems 86400000 [clockProbeItem] :=
  deterministic_given_clock 86400000 86400000 clockProbeItem ⟨4⟩
    [clockProbeItem] rfl

/-- Spec-side model (for comparison with the source): `updateAfterReview`
with the input validation demanded by the spec's error-handling section,
rejecting quality scores outside [0, 5]. -/
def updateAfterReviewChecked (now : Int) (item : LearningItem)
    (result : ReviewResult) : Except String LearningItem :=
  if result.quality < 0 ∨ 5 < result.quality then Except.error "InvalidInput"
  else Except.ok (updateItemAfterReview now item result)

/-- Spec-side model (for comparison with the source): `createItem` with the
input validation demanded by the spec's error-handling section, rejecting an
empty `content`. -/
def createItemChecked (content translation : String) (type : ItemType)
    (context : Option String) (userId : String) (id : String) (now : Int) :
    Except String LearningItem :=
  if content = "" then Except.error "InvalidInput"
  else Except.ok (createLearningItem content translation type context userId id now)

/-- Counterexample to claim C3: the source performs no input validation.
Where the spec-side checked operations reject (quality 6; empty content), the
source operations return ordinary fully-computed items: the quality-6 review
is processed by the same SM-2 formulas (ease 2.5 becomes 2.66) and the empty
content is stored unchanged. -/
theorem no_input_validation :
    updateAfterReviewChecked 0 clockProbeItem ⟨6⟩ =
      Except.error "InvalidInput" ∧
    (updateItemAfterReview 0 clockProbeItem ⟨6⟩).easeFactor = 133 / 50 ∧
    (updateItemAfterReview 0 clockProbeItem ⟨6⟩).interval = 6 ∧
    createItemChecked "" "x" ItemType.word none "local" "id3" 0 =
      Except.error "InvalidInput" ∧
    (createLearningItem "" "x" ItemType.word none "local" "id3" 0).content = "" := by
  refine ⟨rfl, ?_, rfl, rfl, rfl⟩
  rw [updateItemAfterReview_easeFactor]
  norm_num [clockProbeItem, easeAdjustment, MIN_EASE_FACTOR]

/-- Claim C3 (amended): neither operation validates its input: for every
quality score, including out-of-range ones, `updateItemAfterReview` applies
the SM-2 ease formula (clamped below at 1.3) and returns an item, and
`createLearningItem` stores any `content`, including the empty string,
unchanged. -/
theorem operations_total_no_rejection (now : Int) (item : LearningItem)
    (q : Int) (content translation : String) (ty : ItemType)
    (ctx : Option String) (uid idv : String) (t0 : Int) :
    (updateItemAfterReview now item ⟨q⟩).easeFactor =
      max MIN_EASE_FACTOR (item.easeFactor + easeAdjustment q) ∧
    (createLearningItem content translation ty ctx uid idv t0).content =
      content := by
  refine ⟨?_, rfl⟩
  rw [updateItemAfterReview_easeFactor]
  rcases lt_or_le (item.easeFactor + easeAdjustment q) MIN_EASE_FACTOR with h | h
  · rw [if_pos h, max_eq_left h.le]
  · rw [if_neg (not_lt.mpr h), max_eq_right h]

/-- Name of a day of the week as produced by `Date.prototype.toDateString`
(0 = Sunday ... 6 = Saturday). -/
def weekdayName (w : Int) : String :=
  if w = 0 then "Sun" else if w = 1 then "Mon" else if w = 2 then "Tue"
  else if w = 3 then "Wed" else if w = 4 then "Thu" else if w = 5 then "Fri"
  else "Sat"

/-- Three-letter month name as produced by `Date.prototype.toDateString`
(1 = January ... 12 = December). -/
def monthName (m : Int) : String :=
  if m = 1 then "Jan" else if m = 2 then "Feb" else if m = 3 then "Mar"
  else if m = 4 then "Apr" else if m = 5 then "May" else if m = 6 then "Jun"
  else if m = 7 then "Jul" else if m = 8 then "Aug" else if m = 9 then "Sep"
  else if m = 10 then "Oct" else if m = 11 then "Nov" else "Dec"

/-- Inverse of `monthName` (0 for an unknown name; unreachable on strings
produced by `toDateString`). -/
def monthIndex (s : String) : Int :=
  if s = "Jan" then 1 else if s = "Feb" then 2 else if s = "Mar" then 3
  else if s = "Apr" then 4 else if s = "May" then 5 else if s = "Jun" then 6
  else if s = "Jul" then 7 else if s = "Aug" then 8 else if s = "Sep" then 9
  else if s = "Oct" then 10 else if s = "Nov" then 11
  else if s = "Dec" then 12 else 0

/-- Gregorian civil date (year, month, day) from a count of days since
1970-01-01 (standard days-to-civil conversion). -/
def civilFromDays (z0 : Int) : Int × Int × Int :=
  let z := z0 + 719468
  let era := z.fdiv 146097
  let doe := z - era * 146097
  let yoe := (doe - doe.fdiv 1460 + doe.fdiv 36524 - doe.fdiv 146096).fdiv 365
  let y := yoe + era * 400
  let doy := doe - (365 * yoe + yoe.fdiv 4 - yoe.fdiv 100)
  let mp := (5 * doy + 2).fdiv 153
  let d := doy - (153 * mp + 2).fdiv 5 + 1
  let m := if mp < 10 then mp + 3 else mp - 9
  (if m ≤ 2 then y + 1 else y, m, d)

/-- Count of days since 1970-01-01 of a Gregorian civil date (standard
civil-to-days conversion, inverse of `civilFromDays`). -/
def daysFromCivil (y0 m d : Int) : Int :=
  let y := if m ≤ 2 then y0 - 1 else y0
  let era := y.fdiv 400
  let yoe := y - era * 400
  let mp := if 2 < m then m - 3 else m + 9
  let doy := (153 * mp + 2).fdiv 5 + d - 1
  let doe := yoe * 365 + yoe.fdiv 4 - yoe.fdiv 100 + doy
  era * 146097 + doe - 719468

/-- Decimal digits of a nonnegative integer (helper for `intToString`). -/
def natDigitsString (n : Nat) : String :=
  (Nat.toDigits 10 n).asString

/-- Rendering of an integer in decimal, as JS string conversion does for the
day and year components of `toDateString`. -/
def intToString (z : Int) : String :=
  if z < 0 then "-" ++ natDigitsString z.natAbs else natDigitsString z.natAbs

/-- Model of `new Date(ms).toDateString()` with the local calendar fixed to
UTC: the string `"Www Mmm DD YYYY"`, with the day zero-padded to two
digits. -/
def toDateString (ms : Int) : String :=
  let day := ms.fdiv 86400000
  let ymd := civilFromDays day
  weekdayName ((day + 4).fmod 7) ++ " " ++ monthName ymd.2.1 ++ " " ++
    (if ymd.2.2 < 10 then "0" else "") ++ intToString ymd.2.2 ++ " " ++
    intToString ymd.1

/-- String to nonnegative integer (helper for `parseDateString`). -/
def parseNat (s : String) : Int :=
  ((s.toNat?).getD 0 : Nat)

/-- Model of `new Date(dateString).getTime()` on strings of the
`toDateString` format, with the local calendar fixed to UTC: midnight UTC of
the named calendar day, in milliseconds (0 on a malformed string; unreachable
on strings produced by `toDateString`). -/
def parseDateString (s : String) : Int :=
  match s.splitOn " " with
  | [_, mon, dd, yyyy] => daysFromCivil (parseNat yyyy) (monthIndex mon) (parseNat dd) * 86400000
  | _ => 0

/-- Lexicographic comparison of character lists by code point, the order
JavaScript's default string comparison induces on the ASCII strings produced
by `toDateString` (helper for `strLt`). -/
def charListLt : List Char → List Char → Bool
  | [], [] => false
  | [], _ :: _ => true
  | _ :: _, [] => false
  | a :: as, b :: bs =>
    if a.toNat < b.toNat then true
    else if b.toNat < a.toNat then false
    else charListLt as bs

/-- JavaScript string comparison `a < b` (UTF-16 code units; identical to
code-point order on the ASCII strings handled here). -/
def strLt (a b : String) : Bool := charListLt a.data b.data

/-- Insertion of a string into a list, before the first strictly greater
element: the auxiliary step of `sortStrings`. -/
def insertString (s : String) : List String → List String
  | [] => [s]
  | t :: ts => if strLt s t then s :: t :: ts else t :: insertString s ts

/-- Stable ascending sort by code units, as JavaScript's default
`Array.prototype.sort()` on strings. -/
def sortStrings : List String → List String
  | [] => []
  | s :: ts => insertString s (sortStrings ts)

/-- The source's de-duplication `filter((date, index, arr) =>
arr.indexOf(date) === index)`: keep the first occurrence of each string;
`seen` holds the strings already kept. -/
def dedupKeepFirst (seen : List String) : List String → List String
  | [] => []
  | s :: ts =>
    if seen.contains s then dedupKeepFirst seen ts
    else s :: dedupKeepFirst (seen ++ [s]) ts

/-- The backwards loop of `getStudyStreak`: given the current day string and
the remaining earlier day strings in descending order, count how many
consecutive steps are exactly one day (86400000 ms after parsing, compared
via the source's `diffTime / (1000*60*60*24) === 1`), stopping at the first
gap. -/
def countBack (cur : String) : List String → Nat
  | [] => 0
  | p :: ps =>
    if ((parseDateString cur - parseDateString p : ℚ) / 86400000) = 1
    then 1 + countBack p ps
    else 0

/-- Embedding of `getStudyStreak` (reviewEngine.ts lines 317-347).  The
source reads the current day via `new Date().toDateString()`; the ambient
clock value is the explicit `now` argument.  Faithful to the source: the
calendar-day strings are sorted as strings (lexicographically) and the last
element of that sorted array is compared with today's string. -/
def getStudyStreak (now : Int) (items : List LearningItem) : Nat :=
  let reviewDates := dedupKeepFirst []
    (sortStrings ((items.filter (fun i => decide (0 < i.lastReviewedAt))).map
      (fun i => toDateString i.lastReviewedAt)))
  match reviewDates.reverse with
  | [] => 0
  | last :: rest =>
    if last ≠ toDateString now then 0
    else 1 + countBack last rest


/-- Insertion of an integer into a list before the first strictly greater
element: the auxiliary step of `sortInts`. -/
def insertInt (z : Int) : List Int → List Int
  | [] => [z]
  | t :: ts => if z < t then z :: t :: ts else t :: insertInt z ts

/-- Ascending sort of integers. -/
def sortInts : List Int → List Int
  | [] => []
  | z :: ts => insertInt z (sortInts ts)

/-- Keep the first occurrence of each integer; `seen` holds the integers
already kept. -/
def dedupIntKeepFirst (seen : List Int) : List Int → List Int
  | [] => []
  | z :: ts =>
    if seen.contains z then dedupIntKeepFirst seen ts
    else z :: dedupIntKeepFirst (seen ++ [z]) ts

/-- Count back from the current calendar day number over the remaining
earlier day numbers (descending), while each preceding day is exactly one day
earlier. -/
def countBackDays (cur : Int) : List Int → Nat
  | [] => 0
  | p :: ps => if cur - p = 1 then 1 + countBackDays p ps else 0

/-- The streak computation as the spec and claim C4 word it: collect the
distinct calendar days (as day numbers, UTC) of `lastReviewedAt` over items
with at least one review, sort them ascending as calendar days, and count
back from the most recent day while each preceding day is exactly one
calendar day earlier; 0 whenever the most recent review day is not `now`'s
calendar day. -/
def studyStreakSpecModel (now : Int) (items : List LearningItem) : Nat :=
  let days := dedupIntKeepFirst []
    (sortInts ((items.filter (fun i => decide (0 < i.lastReviewedAt))).map
      (fun i => i.lastReviewedAt.fdiv 86400000)))
  match days.reverse with
  | [] => 0
  | last :: rest =>
    if last ≠ now.fdiv 86400000 then 0
    else 1 + countBackDays last rest

/-- Item last reviewed on Monday 2025-10-06 (UTC). -/
def reviewedMonday : LearningItem :=
  { id := "a", type := ItemType.word, content := "uno", translation := "one",
    context := none, createdAt := 0, lastReviewedAt := 1759712400000,
    nextReviewAt := 0, interval := 1, easeFactor := 5 / 2, userId := "local" }

/-- Item last reviewed on Friday 2025-10-10 (UTC). -/
def reviewedFriday : LearningItem :=
  { id := "b", type := ItemType.word, content := "dos", translation := "two",
    context := none, createdAt := 0, lastReviewedAt := 1760058000000,
    nextReviewAt := 0, interval := 1, easeFactor := 5 / 2, userId := "local" }

/-- A clock value later on Friday 2025-10-10 (UTC). -/
def fridayClock : Int := 1760061600000

/-- Claim C4 evaluated at the failing input: the two items were last reviewed
on Monday 2025-10-06 and Friday 2025-10-10, and `now` falls on Friday
2025-10-10.  The claim's computation (distinct review days sorted as calendar
days, counted back from the most recent) gives streak 1, because the most
recent review day is today.  The code instead sorts the `toDateString`
strings lexicographically, which puts "Mon Oct 06 2025" after
"Fri Oct 10 2025" (weekday name first), compares that lexicographically last
string with today's string, and returns 0. -/
theorem streak_lexicographic_sort_bug :
    toDateString reviewedMonday.lastReviewedAt = "Mon Oct 06 2025" ∧
    toDateString reviewedFriday.lastReviewedAt = "Fri Oct 10 2025" ∧
    toDateString fridayClock = "Fri Oct 10 2025" ∧
    getStudyStreak fridayClock [reviewedMonday, reviewedFriday] = 0 ∧
    studyStreakSpecModel fridayClock [reviewedMonday, reviewedFriday] = 1 := by
  refine ⟨by decide, by decide, by decide, by decide, by decide⟩
